import Mathlib

/-!
Verification of the duplex audio streaming pipeline and session lifecycle
state machine of the Elliot voice-conversation client.

The embedding models the React component `App` (src/unnamed/part_000): its
UI signals (`isConnected`, `error`, `volume`, `isAiSpeaking`), its mutable
refs (audio contexts, media stream, source, processor, analyser, the
playback cursor `nextStartTimeRef`, the session handle, the animation
frame handle), and its operations `stopSession`, `startSession`'s
synchronous prefix and catch handler, the `onmessage` inbound handler, the
`source.onended` completion callback, and the `updateVolume` meter.

Device and channel handles are abstracted as `Option Nat` identity tokens:
`some k` is a held handle, `none` a released one.  Times and durations are
rationals (the source uses the output device's monotonic clock).
-/

/-- The component's observable signals and refs, from the `useState` and
`useRef` declarations of `App` (src/unnamed/part_000 lines 27-41). -/
structure AppState where
  isConnected : Bool
  error : Option String
  volume : ℚ
  isAiSpeaking : Bool
  inputAudioContext : Option Nat
  outputAudioContext : Option Nat
  inputMediaStream : Option Nat
  inputSource : Option Nat
  processor : Option Nat
  analyser : Option Nat
  nextStartTime : ℚ
  aiSession : Option Nat
  animationFrame : Option Nat
deriving Repr, DecidableEq

/-- A decoded playback segment: the relevant observable of the decoded
`AudioBuffer` is its duration. -/
structure Segment where
  duration : ℚ
deriving Repr, DecidableEq

/-- Failure of `decodeAudioData` on a malformed payload. -/
inductive DecodeError where
  | malformed
deriving Repr, DecidableEq

/-- Outcome of `decodeAudioData` on one inbound payload: a decoded segment,
or a decode failure (the awaited promise rejects). -/
inductive Decoded where
  | ok (seg : Segment)
  | err (e : DecodeError)
deriving Repr, DecidableEq

/-- An inbound live-API message as `onmessage` observes it: the optional
audio part (already passed through base64 decoding and `decodeAudioData`,
which may fail), and the turn-complete marker. -/
structure InboundMessage where
  audio : Option Decoded
  turnComplete : Bool
deriving Repr, DecidableEq

/-- A `source.start(startTime)` call issued on the output device. -/
structure ScheduledPlay where
  startTime : ℚ
  duration : ℚ
deriving Repr, DecidableEq

/-- Result of running the `onmessage` handler once: the new component
state and the playback, if any, scheduled on the output device. -/
structure MsgResult where
  state : AppState
  scheduled : Option ScheduledPlay
deriving Repr, DecidableEq

/-- Result of `stopSession`: the new state and the `console.warn` log
entries emitted during cleanup. -/
structure StopResult where
  state : AppState
  warnings : List String
deriving Repr, DecidableEq

/-- `stopSession` (src/unnamed/part_000 lines 44-93).  `closeThrows` says
whether `aiSessionRef.current.close()` throws; the source wraps the call
in try/catch and only logs (`console.warn("Error closing session", e)`),
so every later step still runs.  Steps: null the session ref, stop the
microphone tracks and null the stream, disconnect and null the processor,
the input source and the input audio context, close and null the output
audio context, cancel and null the animation frame, then reset
`isConnected`, `isAiSpeaking`, `volume` and `nextStartTimeRef` (the
analyser ref is not touched, and `error` is not touched). -/
def stopSession (closeThrows : Bool) (s : AppState) : StopResult :=
  { state :=
      { s with
        aiSession := none
        inputMediaStream := none
        processor := none
        inputSource := none
        inputAudioContext := none
        outputAudioContext := none
        animationFrame := none
        isConnected := false
        isAiSpeaking := false
        volume := 0
        nextStartTime := 0 }
    warnings :=
      if s.aiSession.isSome && closeThrows then ["Error closing session"] else [] }

/-- The `onmessage` callback (src/unnamed/part_000 lines 162-199) at output
device time `now`.  If the message carries audio: set `isAiSpeaking` true;
if the output context ref is null, return; if `decodeAudioData` failed the
await throws and the handler aborts with no catch (nothing else runs);
otherwise schedule the buffer at `max now nextStartTime` and advance the
cursor by the buffer's duration.  A turn-complete marker alone is a no-op. -/
def onmessage (now : ℚ) (msg : InboundMessage) (s : AppState) : MsgResult :=
  match msg.audio with
  | none => { state := s, scheduled := none }
  | some decoded =>
    let s1 := { s with isAiSpeaking := true }
    match s1.outputAudioContext with
    | none => { state := s1, scheduled := none }
    | some _ =>
      match decoded with
      | Decoded.err _ => { state := s1, scheduled := none }
      | Decoded.ok seg =>
        let startTime := max now s1.nextStartTime
        { state := { s1 with nextStartTime := startTime + seg.duration }
          scheduled := some { startTime := startTime, duration := seg.duration } }

/-- Running `onmessage` over a sequence of inbound messages, each paired
with the output device time at which it is handled; collects the playbacks
scheduled along the way in order. -/
def runMessages : AppState → List (ℚ × InboundMessage) → AppState × List ScheduledPlay
  | s, [] => (s, [])
  | s, (now, msg) :: rest =>
    let r := onmessage now msg s
    let p := runMessages r.state rest
    (p.1, r.scheduled.toList ++ p.2)

/-- The `source.onended` completion callback registered for each scheduled
segment (src/unnamed/part_000 lines 187-192), fired at output device time
`now`: if `now >= nextStartTime - 0.1` the AI-speaking flag is set false,
otherwise nothing happens. -/
def onended (now : ℚ) (s : AppState) : AppState :=
  if s.nextStartTime - 1/10 ≤ now then { s with isAiSpeaking := false } else s

/-- The volume computation of `updateVolume` (src/unnamed/part_000 lines
228-243): sum the frequency bins with a loop, divide by the bin count,
normalize by 100 and clamp with `Math.min(average / 100, 1)`. -/
def volumeOf (bins : List Nat) : ℚ :=
  let sum : ℚ := ((bins.foldl (fun acc b => acc + b) 0 : Nat) : ℚ)
  let average : ℚ := sum / (bins.length : ℚ)
  min (average / 100) 1

/-- The synchronous prefix of `startSession` before the first await
(src/unnamed/part_000 lines 95-108): clear the error, then construct fresh
input and output audio contexts (identified by the fresh tokens `hIn`,
`hOut`) and store them in the refs.  No state is inspected first: the
function has no guard against an already-running session. -/
def startSessionBegin (hIn hOut : Nat) (s : AppState) : AppState :=
  { s with error := none, inputAudioContext := some hIn, outputAudioContext := some hOut }

/-- The catch handler of `startSession` (src/unnamed/part_000 lines
246-250), entered from whatever intermediate state `s` the attempt reached
when a step threw an error with message `msg`: set the error signal to
`err.message || "Failed to initialize."`, then run `stopSession`. -/
def startSessionCatch (closeThrows : Bool) (msg : String) (s : AppState) : StopResult :=
  stopSession closeThrows
    { s with error := some (if msg = "" then "Failed to initialize." else msg) }

/-- The control rendered by the component (src/unnamed/part_000 lines
299-316): the INITIALIZE button (wired to `startSession`) when not
connected, the TERMINATE button (wired to `stopSession`) when connected. -/
inductive Control where
  | startButton
  | stopButton
deriving Repr, DecidableEq

/-- Which control the UI renders in state `s`. -/
def renderedControl (s : AppState) : Control :=
  if s.isConnected then Control.stopButton else Control.startButton

/-- `true` when the message's audio part, if present and decodable, has a
non-negative duration. -/
def durOk (m : InboundMessage) : Bool :=
  match m.audio with
  | some (Decoded.ok seg) => decide (0 ≤ seg.duration)
  | _ => true

/-- A message carrying a well-decoded segment of duration `d`. -/
def audioMsg (d : ℚ) : InboundMessage :=
  { audio := some (Decoded.ok { duration := d }), turnComplete := false }

/-- A steady-state `Active` session: connected, all handles held, cursor at
its initial value 0. -/
def activeState : AppState :=
  { isConnected := true
    error := none
    volume := 0
    isAiSpeaking := false
    inputAudioContext := some 1
    outputAudioContext := some 2
    inputMediaStream := some 3
    inputSource := some 4
    processor := some 5
    analyser := some 6
    nextStartTime := 0
    aiSession := some 7
    animationFrame := some 8 }

/-- A mid-`Connecting` state: the audio contexts and the microphone stream
are already held, but the channel has not yet opened, so `isConnected` is
still `false` and the UI still renders the INITIALIZE button. -/
def connectingState : AppState :=
  { isConnected := false
    error := none
    volume := 0
    isAiSpeaking := false
    inputAudioContext := some 1
    outputAudioContext := some 2
    inputMediaStream := some 3
    inputSource := none
    processor := none
    analyser := none
    nextStartTime := 0
    aiSession := none
    animationFrame := none }

/-! ## Helper lemmas about the handlers -/

lemma foldl_add_eq_add_sum (l : List Nat) :
    ∀ a : Nat, l.foldl (fun acc b => acc + b) a = a + l.sum := by
  induction l with
  | nil => intro a; simp
  | cons hd tl ih =>
    intro a
    simp only [List.foldl_cons, List.sum_cons, ih (a + hd)]
    omega

lemma durOk_spec {m : InboundMessage} {seg : Segment} (h : durOk m = true)
    (ha : m.audio = some (Decoded.ok seg)) : 0 ≤ seg.duration := by
  unfold durOk at h
  rw [ha] at h
  exact of_decide_eq_true h

/-- One `onmessage` step either schedules nothing and leaves the cursor
alone, or schedules the decoded segment at `max now cursor` and advances
the cursor to that start plus the segment's duration. -/
lemma onmessage_cases (now : ℚ) (msg : InboundMessage) (s : AppState) :
    ((onmessage now msg s).scheduled = none ∧
      (onmessage now msg s).state.nextStartTime = s.nextStartTime) ∨
    (∃ seg, msg.audio = some (Decoded.ok seg) ∧
      (onmessage now msg s).scheduled =
        some { startTime := max now s.nextStartTime, duration := seg.duration } ∧
      (onmessage now msg s).state.nextStartTime = max now s.nextStartTime + seg.duration) := by
  rcases msg with ⟨audio, tc⟩
  rcases audio with _ | d
  · exact Or.inl ⟨rfl, rfl⟩
  · rcases d with seg | e
    · rcases hc : s.outputAudioContext with _ | k
      · exact Or.inl (by constructor <;> simp [onmessage, hc])
      · exact Or.inr ⟨seg, rfl, by simp [onmessage, hc], by simp [onmessage, hc]⟩
    · rcases hc : s.outputAudioContext with _ | k
      · exact Or.inl (by constructor <;> simp [onmessage, hc])
      · exact Or.inl (by constructor <;> simp [onmessage, hc])

/-- Over a run of inbound messages whose decodable segments all have
non-negative durations, the cursor never decreases, and every scheduled
playback starts at or after the initial cursor and ends (start plus
duration) at or before the final cursor. -/
lemma runMessages_bounds (msgs : List (ℚ × InboundMessage)) :
    ∀ s : AppState, (msgs.all fun p => durOk p.2) = true →
      s.nextStartTime ≤ (runMessages s msgs).1.nextStartTime ∧
      (∀ p ∈ (runMessages s msgs).2,
        s.nextStartTime ≤ p.startTime ∧ 0 ≤ p.duration ∧
        p.startTime + p.duration ≤ (runMessages s msgs).1.nextStartTime) := by
  induction msgs with
  | nil => intro s _; simp [runMessages]
  | cons hd tl ih =>
    intro s h
    rw [List.all_cons, Bool.and_eq_true] at h
    obtain ⟨h1, h2⟩ := h
    obtain ⟨now, msg⟩ := hd
    obtain ⟨ihc, ihp⟩ := ih (onmessage now msg s).state h2
    rcases onmessage_cases now msg s with ⟨hn, he⟩ | ⟨seg, hseg, hs, he⟩
    · simp only [runMessages, hn, Option.toList_none, List.nil_append]
      rw [he] at ihc ihp
      exact ⟨ihc, ihp⟩
    · have hdur : 0 ≤ seg.duration := durOk_spec h1 hseg
      have hle : s.nextStartTime ≤ max now s.nextStartTime := le_max_right _ _
      simp only [runMessages, hs, Option.toList_some, List.singleton_append]
      rw [he] at ihc ihp
      constructor
      · calc s.nextStartTime ≤ max now s.nextStartTime := hle
          _ ≤ max now s.nextStartTime + seg.duration := le_add_of_nonneg_right hdur
          _ ≤ _ := ihc
      · intro p hp
        rcases List.mem_cons.mp hp with hp | hp
        · subst hp
          refine ⟨hle, hdur, ?_⟩
          exact ihc
        · obtain ⟨hp1, hp2, hp3⟩ := ihp p hp
          exact ⟨le_trans (le_trans hle (le_add_of_nonneg_right hdur)) hp1, hp2, hp3⟩

/-- Over such a run, the scheduled playbacks are pairwise ordered: each
earlier playback starts no later than, and ends no later than the start
of, each later one. -/
lemma runMessages_pairwise (msgs : List (ℚ × InboundMessage)) :
    ∀ s : AppState, (msgs.all fun p => durOk p.2) = true →
      ((runMessages s msgs).2).Pairwise
        (fun p q => p.startTime ≤ q.startTime ∧ p.startTime + p.duration ≤ q.startTime) := by
  induction msgs with
  | nil => intro s _; simp [runMessages]
  | cons hd tl ih =>
    intro s h
    rw [List.all_cons, Bool.and_eq_true] at h
    obtain ⟨h1, h2⟩ := h
    obtain ⟨now, msg⟩ := hd
    rcases onmessage_cases now msg s with ⟨hn, he⟩ | ⟨seg, hseg, hs, he⟩
    · simp only [runMessages, hn, Option.toList_none, List.nil_append]
      exact ih _ h2
    · have hdur : 0 ≤ seg.duration := durOk_spec h1 hseg
      simp only [runMessages, hs, Option.toList_some, List.singleton_append]
      refine List.Pairwise.cons ?_ (ih _ h2)
      intro q hq
      obtain ⟨hq1, _, _⟩ := (runMessages_bounds tl (onmessage now msg s).state h2).2 q hq
      rw [he] at hq1
      constructor
      · exact le_trans (le_add_of_nonneg_right hdur) hq1
      · exact hq1

/-! ## Claim theorems -/

/-- C1: for every sequence of inbound audio messages, each scheduled
segment starts at `max (device time at handling) cursor`, the cursor is
then set to that start plus the segment's duration, each step with a
non-negative duration never decreases the cursor, and over a whole run
with non-negative durations the cursor never decreases, start times are
non-decreasing and no two scheduled segments' `[start, start + duration)`
intervals overlap (each earlier segment ends no later than each later one
starts). -/
theorem elliot_C1_schedule_invariants (s : AppState)
    (msgs : List (ℚ × InboundMessage))
    (h : (msgs.all fun p => durOk p.2) = true) :
    (∀ (now : ℚ) (msg : InboundMessage) (t : AppState) (p : ScheduledPlay),
        (onmessage now msg t).scheduled = some p →
          p.startTime = max now t.nextStartTime ∧
          (onmessage now msg t).state.nextStartTime = p.startTime + p.duration) ∧
    (∀ (now : ℚ) (msg : InboundMessage) (t : AppState), durOk msg = true →
        t.nextStartTime ≤ (onmessage now msg t).state.nextStartTime) ∧
    s.nextStartTime ≤ (runMessages s msgs).1.nextStartTime ∧
    ((runMessages s msgs).2).Pairwise
      (fun p q => p.startTime ≤ q.startTime ∧ p.startTime + p.duration ≤ q.startTime) := by
  refine ⟨?_, ?_, (runMessages_bounds msgs s h).1, runMessages_pairwise msgs s h⟩
  · intro now msg t p hp
    rcases onmessage_cases now msg t with ⟨hn, _⟩ | ⟨seg, _, hs, he⟩
    · rw [hn] at hp; cases hp
    · rw [hs] at hp
      cases hp
      exact ⟨rfl, he⟩
  · intro now msg t hd
    rcases onmessage_cases now msg t with ⟨_, he⟩ | ⟨seg, hseg, _, he⟩
    · rw [he]
    · rw [he]
      have : 0 ≤ seg.duration := durOk_spec hd hseg
      calc t.nextStartTime ≤ max now t.nextStartTime := le_max_right _ _
        _ ≤ max now t.nextStartTime + seg.duration := le_add_of_nonneg_right this

theorem elliot_C1_witness :
    ((([(0, audioMsg 1)] : List (ℚ × InboundMessage)).all fun p => durOk p.2) = true) ∧
    activeState.nextStartTime ≤ (runMessages activeState [(0, audioMsg 1)]).1.nextStartTime :=
  ⟨by decide,
   (elliot_C1_schedule_invariants activeState [(0, audioMsg 1)] (by decide)).2.2.1⟩

/-- C2: a `DecodeError` on one inbound message only drops that message:
the handler state change is exactly setting the AI-speaking flag, the
connection flag stays `true`, nothing is scheduled, no cleanup runs (all
handles and the cursor are untouched), and a following run of messages
proceeds exactly as it would from that state. -/
theorem elliot_C2_decode_error_local (s : AppState) (now : ℚ) (e : DecodeError)
    (rest : List (ℚ × InboundMessage))
    (hact : s.isConnected = true) (hctx : s.outputAudioContext.isSome = true) :
    (onmessage now { audio := some (Decoded.err e), turnComplete := false } s).state =
      { s with isAiSpeaking := true } ∧
    (onmessage now { audio := some (Decoded.err e), turnComplete := false } s).state.isConnected
      = true ∧
    (onmessage now { audio := some (Decoded.err e), turnComplete := false } s).scheduled
      = none ∧
    runMessages s ((now, { audio := some (Decoded.err e), turnComplete := false }) :: rest) =
      runMessages { s with isAiSpeaking := true } rest := by
  have h1 : (onmessage now { audio := some (Decoded.err e), turnComplete := false } s)
      = { state := { s with isAiSpeaking := true }, scheduled := none } := by
    rcases hk : s.outputAudioContext with _ | k
    · rw [hk] at hctx; cases hctx
    · simp [onmessage, hk]
  refine ⟨by rw [h1], ?_, by rw [h1], ?_⟩
  · rw [h1]; exact hact
  · simp only [runMessages, h1, Option.toList_none, List.nil_append]

theorem elliot_C2_witness :
    activeState.isConnected = true ∧ activeState.outputAudioContext.isSome = true ∧
    (onmessage 0 { audio := some (Decoded.err DecodeError.malformed), turnComplete := false }
        activeState).scheduled = none :=
  ⟨rfl, rfl,
   (elliot_C2_decode_error_local activeState 0 DecodeError.malformed [] rfl rfl).2.2.1⟩

/-- C6: enqueueing two 1-second segments at device times 0.0 and 0.5 with
the cursor initially 0 schedules them at 0.0 and 1.0 and leaves the cursor
at 2.0. -/
theorem elliot_C6_two_segments :
    (runMessages activeState [(0, audioMsg 1), (1/2, audioMsg 1)]).2 =
      [{ startTime := 0, duration := 1 }, { startTime := 1, duration := 1 }] ∧
    (runMessages activeState [(0, audioMsg 1), (1/2, audioMsg 1)]).1.nextStartTime = 2 := by
  have hmax1 : max (0:ℚ) 0 = 0 := by norm_num
  have hmax2 : max (1/2 : ℚ) (0 + 1) = 1 := by rw [max_eq_right] <;> norm_num
  constructor <;>
    simp [runMessages, onmessage, audioMsg, activeState, hmax1, hmax2] <;> norm_num

/-- C3 counterexample: in a mid-`Connecting` state — not `Idle`, since the
audio contexts and the microphone stream are already held — the UI still
renders the INITIALIZE button (so a start request can be issued), and the
start request is neither rejected nor a no-op: it disturbs the in-flight
session by overwriting its held input-audio-context handle with a fresh
one and clearing nothing else. -/
theorem elliot_C3_counterexample :
    renderedControl connectingState = Control.startButton ∧
    startSessionBegin 10 11 connectingState ≠ connectingState ∧
    (startSessionBegin 10 11 connectingState).inputAudioContext
      ≠ connectingState.inputAudioContext := by
  refine ⟨rfl, ?_, by decide⟩
  intro hcontra
  have : (startSessionBegin 10 11 connectingState).inputAudioContext
      = connectingState.inputAudioContext := by rw [hcontra]
  exact absurd this (by decide)

/-- C3 (amended): while a session is `Active` (`isConnected = true`) the
component renders only the TERMINATE control, so no start request can be
issued through the interface and the active session is undisturbed; the
`startSession` function itself performs no state check, so a start issued
while `Connecting` (`isConnected` still `false`, handles already held)
proceeds and overwrites the held handles. -/
theorem elliot_C3_single_flight_ui (s : AppState) (hact : s.isConnected = true) :
    renderedControl s = Control.stopButton ∧
    renderedControl s ≠ Control.startButton := by
  constructor
  · simp [renderedControl, hact]
  · simp [renderedControl, hact]

theorem elliot_C3_witness :
    activeState.isConnected = true ∧
    renderedControl activeState = Control.stopButton :=
  ⟨rfl, (elliot_C3_single_flight_ui activeState rfl).1⟩

/-- C4: `stopSession` always completes: whether or not closing the channel
throws, the resulting state has the connection flag, AI-speaking flag,
volume and cursor reset and every handle (channel session, media stream,
processor, input source, input audio context, output audio context,
animation frame) released, with the error signal untouched; a throwing
close is logged to the warning log and a non-throwing (or absent) close
logs nothing — in neither case does the failure surface in the error
signal or block any later step. -/
theorem elliot_C4_teardown_total (b : Bool) (s : AppState) :
    (stopSession b s).state =
      { isConnected := false, error := s.error, volume := 0, isAiSpeaking := false,
        inputAudioContext := none, outputAudioContext := none, inputMediaStream := none,
        inputSource := none, processor := none, analyser := s.analyser,
        nextStartTime := 0, aiSession := none, animationFrame := none } ∧
    ((s.aiSession.isSome && b) = true →
      (stopSession b s).warnings = ["Error closing session"]) ∧
    ((s.aiSession.isSome && b) = false → (stopSession b s).warnings = []) := by
  refine ⟨rfl, ?_, ?_⟩
  · intro h; simp [stopSession, h]
  · intro h; simp [stopSession, h]

theorem elliot_C4_witness :
    (stopSession true activeState).state.outputAudioContext = none ∧
    (stopSession true activeState).warnings = ["Error closing session"] := by
  refine ⟨?_, (elliot_C4_teardown_total true activeState).2.1 (by decide)⟩
  rw [(elliot_C4_teardown_total true activeState).1]

/-- C5: whatever intermediate state a failing start attempt reached and
whatever (possibly empty) message the thrown error carried, the catch
handler leaves the session disconnected with every handle released, the
cursor reset, and a non-empty user-visible error message set. -/
theorem elliot_C5_start_failure_cleanup (b : Bool) (msg : String) (s : AppState) :
    (startSessionCatch b msg s).state.isConnected = false ∧
    (startSessionCatch b msg s).state.inputAudioContext = none ∧
    (startSessionCatch b msg s).state.outputAudioContext = none ∧
    (startSessionCatch b msg s).state.inputMediaStream = none ∧
    (startSessionCatch b msg s).state.inputSource = none ∧
    (startSessionCatch b msg s).state.processor = none ∧
    (startSessionCatch b msg s).state.aiSession = none ∧
    (startSessionCatch b msg s).state.animationFrame = none ∧
    (startSessionCatch b msg s).state.nextStartTime = 0 ∧
    ∃ m, (startSessionCatch b msg s).state.error = some m ∧ m ≠ "" := by
  refine ⟨rfl, rfl, rfl, rfl, rfl, rfl, rfl, rfl, rfl, ?_⟩
  by_cases hm : msg = ""
  · exact ⟨"Failed to initialize.", by simp [startSessionCatch, stopSession, hm], by decide⟩
  · exact ⟨msg, by simp [startSessionCatch, stopSession, hm], hm⟩

/-- C7: for every non-empty sequence of frequency bins, each a byte in
0..255, the volume meter outputs exactly `min ((mean of the bins) / 100) 1`
and that value lies in `[0, 1]`. -/
theorem elliot_C7_volume_clamped (bins : List Nat) (hne : bins ≠ [])
    (hbyte : ∀ b ∈ bins, b ≤ 255) :
    volumeOf bins = min (((bins.sum : ℚ) / (bins.length : ℚ)) / 100) 1 ∧
    0 ≤ volumeOf bins ∧ volumeOf bins ≤ 1 := by
  have hfold : bins.foldl (fun acc b => acc + b) 0 = bins.sum := by
    rw [foldl_add_eq_add_sum bins 0]
    omega
  have heq : volumeOf bins = min (((bins.sum : ℚ) / (bins.length : ℚ)) / 100) 1 := by
    unfold volumeOf
    rw [hfold]
  refine ⟨heq, ?_, ?_⟩
  · rw [heq]
    have h0 : (0:ℚ) ≤ ((bins.sum : ℚ) / (bins.length : ℚ)) / 100 := by
      apply div_nonneg
      · apply div_nonneg
        · exact_mod_cast Nat.zero_le _
        · exact_mod_cast Nat.zero_le _
      · norm_num
    exact le_min h0 zero_le_one
  · rw [heq]
    exact min_le_right _ _

theorem elliot_C7_witness :
    (([255, 255, 255] : List Nat) ≠ []) ∧
    (∀ b ∈ ([255, 255, 255] : List Nat), b ≤ 255) ∧
    0 ≤ volumeOf [255, 255, 255] ∧ volumeOf [255, 255, 255] ≤ 1 :=
  ⟨by decide, by decide,
   (elliot_C7_volume_clamped [255, 255, 255] (by decide) (by decide)).2⟩

/-- C8: when the completion callback of a scheduled segment fires at
output device time `now`, the AI-speaking flag is set to `false` exactly
when `now` is at least the cursor minus the 0.1-second epsilon (and
nothing else changes), and otherwise the state is left entirely
unchanged. -/
theorem elliot_C8_onended (now : ℚ) (s : AppState) :
    (s.nextStartTime - 1/10 ≤ now →
      onended now s = { s with isAiSpeaking := false }) ∧
    (¬ (s.nextStartTime - 1/10 ≤ now) → onended now s = s) := by
  constructor
  · intro h; unfold onended; rw [if_pos h]
  · intro h; unfold onended; rw [if_neg h]

theorem elliot_C8_witness :
    onended 5 { activeState with isAiSpeaking := true }
      = { activeState with isAiSpeaking := false } :=
  (elliot_C8_onended 5 { activeState with isAiSpeaking := true }).1
    (by norm_num [activeState])

/-- C9: if an inbound message carries audio but the output-context ref is
null at handling time, the handler sets the AI-speaking flag to `true`,
then returns: nothing is scheduled, no other field changes (in particular
no error is set and the flag is not reset), regardless of whether the
payload would have decoded. -/
theorem elliot_C9_no_output_ctx (now : ℚ) (s : AppState) (d : Decoded) (tc : Bool)
    (hctx : s.outputAudioContext = none) :
    onmessage now { audio := some d, turnComplete := tc } s =
      { state := { s with isAiSpeaking := true }, scheduled := none } := by
  rcases d with seg | e <;> simp [onmessage, hctx]

theorem elliot_C9_witness :
    (stopSession false activeState).state.outputAudioContext = none ∧
    onmessage 0 { audio := some (Decoded.ok { duration := 1 }), turnComplete := false }
        (stopSession false activeState).state =
      { state := { (stopSession false activeState).state with isAiSpeaking := true },
        scheduled := none } :=
  ⟨rfl,
   elliot_C9_no_output_ctx 0 (stopSession false activeState).state
     (Decoded.ok { duration := 1 }) false rfl⟩

/-- C10: teardown resets the connected, AI-speaking and volume signals but
leaves the error signal exactly as it was (as do the inbound-message
handler and the completion callback), and the first action of a start
request sets the error signal to `none`. -/
theorem elliot_C10_error_frame (b : Bool) (s : AppState) (hIn hOut : Nat)
    (s2 : AppState) (now : ℚ) (msg : InboundMessage) (s3 : AppState)
    (now2 : ℚ) (s4 : AppState) :
    (stopSession b s).state.error = s.error ∧
    (stopSession b s).state.isConnected = false ∧
    (stopSession b s).state.isAiSpeaking = false ∧
    (stopSession b s).state.volume = 0 ∧
    (startSessionBegin hIn hOut s2).error = none ∧
    (onmessage now msg s3).state.error = s3.error ∧
    (onended now2 s4).error = s4.error := by
  refine ⟨rfl, rfl, rfl, rfl, rfl, ?_, ?_⟩
  · rcases msg with ⟨audio, tc⟩
    rcases audio with _ | d
    · rfl
    · rcases d with seg | e <;> rcases hc : s3.outputAudioContext with _ | k <;>
        simp [onmessage, hc]
  · unfold onended
    split <;> rfl
